import Mathlib

/-!
# Shallow embedding of the neuber-correction-server session / rate-limit core

This file embeds the persistence-and-accounting layer of the repository:

* the three record kinds stored by `SQLiteDatabase` (`app/db/sqlite3.py`):
  sessions, rate-limit counters and usage-log entries, modelled as
  association lists / append-only lists inside a `Store`;
* the store operations of `SQLiteDatabase` (`create_session`,
  `update_session_activity`, `create_rate_limit`, `update_rate_limit`,
  `cleanup_expired_sessions`, `clear_all_data`, `create_tables`, ...);
* the rate limiter `check_rate_limit` of `app/utils/session.py`, including
  its handling of an absent (`None`) database and of a database whose
  calls raise (the `try/except` fail-open path);
* the in-memory `user_materials` dictionary of `app/utils/session.py` and
  its `cleanup_expired_sessions`;
* the rate-limit gate at the top of the route handlers
  (`app/api/routes/neuber_routes.py`, `material_routes.py`,
  `index_routes.py`), including Python's truthiness of the
  `(allowed, info)` tuple in the `if not check_rate_limit(...)` tests.

Timestamps are modelled as `Int` seconds (the code uses `datetime`
values and converts `reset` to an epoch-second integer); Python integers
are modelled as `Int`.
-/

namespace NeuberServer

/-- A row of the `sessions` table (`db/migrations/2025-08-04-init.sql`,
columns used by `app/db/sqlite3.py`): `created_at`, `last_activity`,
`request_count`, `ip_address`; the `session_id` key is kept outside the
record, as the key of the association list. -/
structure SessionRec where
  created_at : Int
  last_activity : Int
  request_count : Int
  ip_address : String
deriving DecidableEq

/-- A row of the `rate_limits` table: `requests` and `window_start`;
the `key` column is the association-list key. -/
structure RateLimitRec where
  requests : Int
  window_start : Int
deriving DecidableEq

/-- A row of the `usage_logs` table, as inserted by
`SQLiteDatabase.log_usage`. -/
structure UsageLogRec where
  session_id : String
  endpoint : String
  duration_ms : Int
  success : Bool
  error_message : Option String
  timestamp : Int
  ip_address : String
deriving DecidableEq

/-- The whole database state: the three tables owned by the store.
`sessions` and `rate_limits` are keyed by their primary-key string;
`usage_logs` is append-only. -/
structure Store where
  sessions : List (String × SessionRec)
  rate_limits : List (String × RateLimitRec)
  usage_logs : List UsageLogRec
deriving DecidableEq

/-- The rate-limit configuration read by `check_rate_limit` from
`app/utils/settings.py` (`rate_limit_window`, default 60 seconds, and
`rate_limit_requests`, default 100). -/
structure Settings where
  rate_limit_window : Int
  rate_limit_requests : Int
deriving DecidableEq

/-- The `info` dictionary returned by `check_rate_limit`:
`{"limit": ..., "remaining": ..., "reset": ...}`. -/
structure RateInfo where
  limit : Int
  remaining : Int
  reset : Int
deriving DecidableEq

/-- Keyed row lookup in an association-list table: the first row whose
key matches, as produced by `SELECT ... WHERE <key-column> = ?` followed
by `fetchone()`. -/
def findRow {β : Type} (key : String) : List (String × β) → Option β
  | [] => none
  | p :: t => if p.1 == key then some p.2 else findRow key t

namespace SQLiteDatabase

/-- Model of `SQLiteDatabase.get_session`: `SELECT ... FROM sessions WHERE
session_id = ?`, returning the row or `None`. -/
def get_session (s : Store) (session_id : String) : Option SessionRec :=
  findRow session_id s.sessions

/-- Model of `SQLiteDatabase.create_session`: `INSERT INTO sessions ... VALUES
(?, now, now, 1, ip)`.  The two `datetime.now()` calls are modelled as
the single instant `now`. -/
def create_session (s : Store) (session_id ip_address : String) (now : Int) : Store :=
  { s with sessions := s.sessions ++ [(session_id, ⟨now, now, 1, ip_address⟩)] }

/-- Model of `SQLiteDatabase.update_session_activity`: `UPDATE sessions SET
last_activity = now, request_count = request_count + 1 WHERE session_id
= ?`; if `cursor.rowcount == 0` (no row matched) it calls
`create_session` instead.  Note the `UPDATE` does not touch
`ip_address` or `created_at`. -/
def update_session_activity (s : Store) (session_id ip_address : String) (now : Int) :
    Store :=
  let updated := s.sessions.map (fun p =>
    if p.1 == session_id then
      (p.1, { p.2 with last_activity := now, request_count := p.2.request_count + 1 })
    else p)
  if (findRow session_id s.sessions).isSome then
    { s with sessions := updated }
  else
    create_session s session_id ip_address now

/-- Model of `SQLiteDatabase.get_rate_limit`: `SELECT key, requests, window_start
FROM rate_limits WHERE key = ?`. -/
def get_rate_limit (s : Store) (key : String) : Option RateLimitRec :=
  findRow key s.rate_limits

/-- Model of `SQLiteDatabase.create_rate_limit`: `INSERT INTO rate_limits (key,
requests, window_start) VALUES (?, 1, ?)`. -/
def create_rate_limit (s : Store) (key : String) (window_start : Int) : Store :=
  { s with rate_limits := s.rate_limits ++ [(key, ⟨1, window_start⟩)] }

/-- Model of `SQLiteDatabase.update_rate_limit`: `UPDATE rate_limits SET requests
= ?, window_start = ? WHERE key = ?` — a full overwrite of both fields
on every row matching the key. -/
def update_rate_limit (s : Store) (key : String) (requests window_start : Int) : Store :=
  { s with rate_limits := s.rate_limits.map (fun p =>
      if p.1 == key then (p.1, ⟨requests, window_start⟩) else p) }

/-- Model of `SQLiteDatabase.log_usage`: a single `INSERT INTO usage_logs ...`. -/
def log_usage (s : Store) (session_id endpoint : String) (duration_ms : Int)
    (success : Bool) (ip_address : String) (error_message : Option String)
    (now : Int) : Store :=
  { s with usage_logs := s.usage_logs ++
      [⟨session_id, endpoint, duration_ms, success, error_message, now, ip_address⟩] }

/-- Model of `SQLiteDatabase.get_session_count`: `SELECT COUNT(*) FROM sessions`. -/
def get_session_count (s : Store) : Nat :=
  s.sessions.length

/-- Model of `SQLiteDatabase.clear_all_data`: `DELETE FROM sessions; DELETE FROM
rate_limits; DELETE FROM usage_logs`. -/
def clear_all_data (_ : Store) : Store :=
  ⟨[], [], []⟩

/-- Model of `SQLiteDatabase.cleanup_expired_sessions`: with `cutoff = now -
ttl_seconds`, `DELETE FROM sessions WHERE last_activity < cutoff`,
`DELETE FROM rate_limits WHERE window_start < cutoff`, `DELETE FROM
usage_logs WHERE timestamp < cutoff`.  A `DELETE WHERE c` keeps exactly
the rows with `¬ c`. -/
def cleanup_expired_sessions (s : Store) (now ttl_seconds : Int) : Store :=
  let cutoff := now - ttl_seconds
  { sessions := s.sessions.filter (fun p => !(decide (p.2.last_activity < cutoff))),
    rate_limits := s.rate_limits.filter (fun p => !(decide (p.2.window_start < cutoff))),
    usage_logs := s.usage_logs.filter (fun l => !(decide (l.timestamp < cutoff))) }

/-- Model of `"needle" in str(e)`: Python substring containment, on the character
lists of the two strings.  `strStartsWith n h` is `h` starting with `n`. -/
def strStartsWith : List Char → List Char → Bool
  | [], _ => true
  | _ :: _, [] => false
  | a :: as, b :: bs => a == b && strStartsWith as bs

/-- Substring occurrence: `needle` occurs somewhere in `hay`. -/
def strContainsSub (needle : List Char) : List Char → Bool
  | [] => strStartsWith needle []
  | c :: rest => strStartsWith needle (c :: rest) || strContainsSub needle rest

/-- Python `needle in hay` on strings. -/
def strContains (hay needle : String) : Bool :=
  strContainsSub needle.toList hay.toList

/-- Model of `SQLiteDatabase.create_tables`: runs the migration script
`db/migrations/2025-08-04-init.sql` inside `try`; on an exception `e`
it re-raises unless `"already exists" in str(e)`.  The file I/O and
script execution are shallow-embedded as the `attempt` argument: `.ok
()` when the script ran, `.error e` when any step raised with message
`e` (`str(e)`). -/
def create_tables (attempt : Except String Unit) : Except String Unit :=
  match attempt with
  | .ok _ => .ok ()
  | .error e => if strContains e "already exists" then .ok () else .error e

end SQLiteDatabase

namespace SessionUtils

/-- The in-memory `user_materials` dictionary of `app/utils/session.py`,
modelled as an insertion-ordered association list (Python dicts preserve
insertion order); values are abstract. -/
def cleanup_expired_sessions {α : Type} (user_materials : List (String × α)) :
    List (String × α) :=
  if user_materials.length > 1000 then
    let oldest_keys := (user_materials.map Prod.fst).take 100
    user_materials.filter (fun p => !(oldest_keys.contains p.1))
  else
    user_materials

/-- The state of the `db` argument handed to `check_rate_limit`: either
the Python value `None`, or a database every call into which raises (so
control reaches the `except` branch), or a healthy database holding a
`Store`. -/
inductive StoreState
  | absent
  | faulty
  | healthy (s : Store)
deriving DecidableEq

/-- Model of `check_rate_limit(db, key)` of `app/utils/session.py`, with the wall
clock `now` and the `Settings()` values made explicit.  Returns the
`(allowed, info)` pair and the resulting database state.  `window_start
= now - timedelta(seconds=settings.rate_limit_window)` is the local
variable of the code; the `None` check and the `except Exception`
fail-open branch are the `absent` and `faulty` cases. -/
def check_rate_limit (settings : Settings) (now : Int) (db : StoreState)
    (key : String) : (Bool × RateInfo) × StoreState :=
  let window_start := now - settings.rate_limit_window
  match db with
  | .absent =>
      ((true, ⟨settings.rate_limit_requests, settings.rate_limit_requests - 1,
        now + settings.rate_limit_window⟩), .absent)
  | .faulty =>
      ((true, ⟨settings.rate_limit_requests, settings.rate_limit_requests - 1,
        now + settings.rate_limit_window⟩), .faulty)
  | .healthy s =>
      match SQLiteDatabase.get_rate_limit s key with
      | none =>
          ((true, ⟨settings.rate_limit_requests, settings.rate_limit_requests - 1,
            now + settings.rate_limit_window⟩),
           .healthy (SQLiteDatabase.create_rate_limit s key now))
      | some rate_limit =>
          if rate_limit.window_start < window_start then
            ((true, ⟨settings.rate_limit_requests, settings.rate_limit_requests - 1,
              now + settings.rate_limit_window⟩),
             .healthy (SQLiteDatabase.update_rate_limit s key 1 now))
          else if rate_limit.requests ≥ settings.rate_limit_requests then
            ((false, ⟨settings.rate_limit_requests, 0,
              rate_limit.window_start + settings.rate_limit_window⟩), .healthy s)
          else
            let new_count := rate_limit.requests + 1
            ((true, ⟨settings.rate_limit_requests,
              settings.rate_limit_requests - new_count,
              rate_limit.window_start + settings.rate_limit_window⟩),
             .healthy (SQLiteDatabase.update_rate_limit s key new_count
               rate_limit.window_start))

end SessionUtils

/-- Python truthiness of the 2-tuple `(allowed, info)` returned by
`check_rate_limit`: a non-empty tuple is truthy regardless of its
contents, so `not (allowed, info)` is always `False`. -/
def py_truthy (_ : Bool × RateInfo) : Bool :=
  true

/-- Outcome of the rate-limit gate at the top of a route handler:
either the handler raised `HTTPException(429)` or it proceeded into the
business logic. -/
inductive GateOutcome
  | rejected429
  | proceed
deriving DecidableEq

/-- The gate of `correct_stresses` (`app/api/routes/neuber_routes.py`):
`if not check_rate_limit(request.app.state.db, key): raise
HTTPException(429)` — the `not` is applied to the whole tuple. -/
def correct_stresses_gate (settings : Settings) (now : Int)
    (db : SessionUtils.StoreState) (key : String) : GateOutcome × SessionUtils.StoreState :=
  let r := SessionUtils.check_rate_limit settings now db key
  if !(py_truthy r.1) then (.rejected429, r.2) else (.proceed, r.2)

/-- The gate of `generate_plot` (`app/api/routes/neuber_routes.py`):
same pattern, `if not check_rate_limit(...)` on the tuple. -/
def generate_plot_gate (settings : Settings) (now : Int)
    (db : SessionUtils.StoreState) (key : String) : GateOutcome × SessionUtils.StoreState :=
  let r := SessionUtils.check_rate_limit settings now db key
  if !(py_truthy r.1) then (.rejected429, r.2) else (.proceed, r.2)

/-- The gate of `upload_materials` (`app/api/routes/material_routes.py`):
same pattern, `if not check_rate_limit(...)` on the tuple. -/
def upload_materials_gate (settings : Settings) (now : Int)
    (db : SessionUtils.StoreState) (key : String) : GateOutcome × SessionUtils.StoreState :=
  let r := SessionUtils.check_rate_limit settings now db key
  if !(py_truthy r.1) then (.rejected429, r.2) else (.proceed, r.2)

/-- The gate of `health_check` (`app/api/routes/index_routes.py`):
`allowed, rate_info = check_rate_limit(db, key); if not allowed: raise
HTTPException(429)` — this handler unpacks the tuple. -/
def health_check_gate (settings : Settings) (now : Int)
    (db : SessionUtils.StoreState) (key : String) : GateOutcome × SessionUtils.StoreState :=
  let r := SessionUtils.check_rate_limit settings now db key
  if !(r.1.1) then (.rejected429, r.2) else (.proceed, r.2)

/-- The session-record invariant of the spec's data model:
`request_count ≥ 1` and `last_activity ≥ created_at` for every existing
session row. -/
def SessionWF (s : Store) : Prop :=
  ∀ p ∈ s.sessions, 1 ≤ p.2.request_count ∧ p.2.created_at ≤ p.2.last_activity

/-! ## Association-list lookup lemmas -/

/-- Unfolding `findRow` on the empty table. -/
theorem findRow_nil {β : Type} (key : String) :
    findRow key ([] : List (String × β)) = none :=
  rfl

/-- Unfolding `findRow` on a nonempty table. -/
theorem findRow_cons {β : Type} (key : String) (a : String × β)
    (t : List (String × β)) :
    findRow key (a :: t) = if a.1 == key then some a.2 else findRow key t :=
  rfl

/-- A successful keyed lookup returns the value of some row of the
table. -/
theorem findRow_mem {β : Type} {l : List (String × β)} {key : String} {v : β}
    (h : findRow key l = some v) : ∃ p ∈ l, p.2 = v := by
  induction l with
  | nil => simp [findRow_nil] at h
  | cons a t ih =>
    rw [findRow_cons] at h
    cases hb : a.1 == key with
    | true =>
      rw [hb] at h
      simp only [if_true] at h
      exact ⟨a, List.mem_cons_self a t, Option.some.inj h⟩
    | false =>
      rw [hb] at h
      simp only [Bool.false_eq_true, if_false] at h
      rcases ih h with ⟨p, hp, hv⟩
      exact ⟨p, List.mem_cons_of_mem a hp, hv⟩

/-- A keyed lookup that fails on `l` succeeds on `l ++ [(key, v)]` with the
appended row. -/
theorem findRow_append_single {β : Type} {l : List (String × β)} {key : String}
    (v : β) (h : findRow key l = none) :
    findRow key (l ++ [(key, v)]) = some v := by
  induction l with
  | nil => simp [findRow_cons]
  | cons a t ih =>
    cases hb : a.1 == key with
    | true => simp [findRow_cons, hb] at h
    | false =>
      rw [findRow_cons, hb] at h
      simp only [Bool.false_eq_true, if_false] at h
      rw [List.cons_append, findRow_cons, hb]
      simp only [Bool.false_eq_true, if_false]
      exact ih h

/-- Updating every row at `key` in a table updates the row a keyed lookup
finds. -/
theorem findRow_map_upd {β : Type} (key : String) (f : β → β) :
    ∀ (l : List (String × β)) (v : β), findRow key l = some v →
      findRow key (l.map (fun p => if p.1 == key then (p.1, f p.2) else p))
        = some (f v) := by
  intro l
  induction l with
  | nil => intro v h; simp [findRow_nil] at h
  | cons a t ih =>
    intro v h
    rw [findRow_cons] at h
    cases hb : a.1 == key with
    | true =>
      rw [hb] at h
      simp only [if_true] at h
      rw [List.map_cons]
      rw [show (if (a.1 == key) = true then (a.1, f a.2) else a) = (a.1, f a.2)
        from by rw [hb]; simp]
      rw [findRow_cons]
      simp only [hb, if_true]
      exact congrArg (fun x => some (f x)) (Option.some.inj h)
    | false =>
      rw [hb] at h
      simp only [Bool.false_eq_true, if_false] at h
      rw [List.map_cons]
      rw [show (if (a.1 == key) = true then (a.1, f a.2) else a) = a
        from by rw [hb]; simp]
      rw [findRow_cons, hb]
      simp only [Bool.false_eq_true, if_false]
      exact ih v h

namespace SQLiteDatabase

/-- Reading back a freshly created rate-limit row. -/
theorem get_rate_limit_create (s : Store) (key : String) (ws : Int)
    (h : get_rate_limit s key = none) :
    get_rate_limit (create_rate_limit s key ws) key = some ⟨1, ws⟩ :=
  findRow_append_single _ h

/-- Reading back an overwritten rate-limit row. -/
theorem get_rate_limit_update (s : Store) (key : String)
    (requests window_start : Int) (rl : RateLimitRec)
    (h : get_rate_limit s key = some rl) :
    get_rate_limit (update_rate_limit s key requests window_start) key
      = some ⟨requests, window_start⟩ := by
  unfold get_rate_limit update_rate_limit
  exact findRow_map_upd key (fun _ => (⟨requests, window_start⟩ : RateLimitRec))
    s.rate_limits rl h

/-- Reading back a freshly created session row. -/
theorem get_session_create (s : Store) (session_id ip_address : String) (now : Int)
    (h : get_session s session_id = none) :
    get_session (create_session s session_id ip_address now) session_id
      = some ⟨now, now, 1, ip_address⟩ :=
  findRow_append_single _ h

/-- A touch of an existing session increments `request_count`, sets
`last_activity` to `now`, and leaves `created_at` and `ip_address` as they
were. -/
theorem get_session_touch (s : Store) (session_id ip_address : String) (now : Int)
    (rec : SessionRec) (h : get_session s session_id = some rec) :
    get_session (update_session_activity s session_id ip_address now) session_id
      = some ⟨rec.created_at, now, rec.request_count + 1, rec.ip_address⟩ := by
  unfold update_session_activity
  rw [show findRow session_id s.sessions = some rec from h]
  simp only [Option.isSome_some, if_true]
  exact findRow_map_upd session_id
    (fun r => { r with last_activity := now, request_count := r.request_count + 1 })
    _ rec h

/-- A touch of an unknown session id is exactly `create_session`. -/
theorem touch_of_absent (s : Store) (session_id ip_address : String) (now : Int)
    (h : get_session s session_id = none) :
    update_session_activity s session_id ip_address now
      = create_session s session_id ip_address now := by
  unfold update_session_activity
  rw [show findRow session_id s.sessions = none from h]
  simp

end SQLiteDatabase

/-! ## Claims about the rate limiter -/

/-- C1: `check_rate_limit` implements the fixed-window algorithm.  If no
counter exists for the key, it creates one with `requests = 1` and
`window_start = now` and returns allowed with `remaining = limit - 1`,
`reset = now + windowLength`; if the counter's window has expired
(`now - window_start > windowLength`) it resets the counter to
`requests = 1`, `window_start = now` with the same allowed result;
otherwise, below the limit, it increments `requests` by exactly 1,
persists the original `window_start` unchanged, and returns allowed
with `remaining = limit - new requests`,
`reset = window_start + windowLength`. -/
theorem check_rate_limit_fixed_window (settings : Settings) (now : Int)
    (s : Store) (key : String) :
    (SQLiteDatabase.get_rate_limit s key = none →
      SessionUtils.check_rate_limit settings now (.healthy s) key
        = ((true, ⟨settings.rate_limit_requests, settings.rate_limit_requests - 1,
            now + settings.rate_limit_window⟩),
           .healthy (SQLiteDatabase.create_rate_limit s key now)) ∧
      SQLiteDatabase.get_rate_limit (SQLiteDatabase.create_rate_limit s key now) key
        = some ⟨1, now⟩) ∧
    (∀ rl : RateLimitRec, SQLiteDatabase.get_rate_limit s key = some rl →
      now - rl.window_start > settings.rate_limit_window →
      SessionUtils.check_rate_limit settings now (.healthy s) key
        = ((true, ⟨settings.rate_limit_requests, settings.rate_limit_requests - 1,
            now + settings.rate_limit_window⟩),
           .healthy (SQLiteDatabase.update_rate_limit s key 1 now)) ∧
      SQLiteDatabase.get_rate_limit (SQLiteDatabase.update_rate_limit s key 1 now) key
        = some ⟨1, now⟩) ∧
    (∀ rl : RateLimitRec, SQLiteDatabase.get_rate_limit s key = some rl →
      ¬(now - rl.window_start > settings.rate_limit_window) →
      rl.requests < settings.rate_limit_requests →
      SessionUtils.check_rate_limit settings now (.healthy s) key
        = ((true, ⟨settings.rate_limit_requests,
            settings.rate_limit_requests - (rl.requests + 1),
            rl.window_start + settings.rate_limit_window⟩),
           .healthy (SQLiteDatabase.update_rate_limit s key (rl.requests + 1)
             rl.window_start)) ∧
      SQLiteDatabase.get_rate_limit
          (SQLiteDatabase.update_rate_limit s key (rl.requests + 1) rl.window_start)
          key
        = some ⟨rl.requests + 1, rl.window_start⟩) := by
  refine ⟨fun h => ?_, fun rl h hexp => ?_, fun rl h hexp hlt => ?_⟩
  · refine ⟨?_, SQLiteDatabase.get_rate_limit_create s key now h⟩
    simp only [SessionUtils.check_rate_limit, h]
  · have hcond : rl.window_start < now - settings.rate_limit_window := by omega
    refine ⟨?_, SQLiteDatabase.get_rate_limit_update s key 1 now rl h⟩
    simp only [SessionUtils.check_rate_limit, h]
    rw [if_pos hcond]
  · have hcond : ¬(rl.window_start < now - settings.rate_limit_window) := by omega
    have hge : ¬(rl.requests ≥ settings.rate_limit_requests) := by omega
    refine ⟨?_,
      SQLiteDatabase.get_rate_limit_update s key (rl.requests + 1) rl.window_start rl h⟩
    simp only [SessionUtils.check_rate_limit, h]
    rw [if_neg hcond, if_neg hge]

/-- Witness for C1: the three branches of the fixed-window algorithm at
concrete inputs (limit 100, window 60s). -/
theorem check_rate_limit_fixed_window_case :
    SessionUtils.check_rate_limit ⟨60, 100⟩ 10 (.healthy ⟨[], [], []⟩) "k"
      = ((true, ⟨100, 99, 70⟩), .healthy ⟨[], [("k", ⟨1, 10⟩)], []⟩) ∧
    SessionUtils.check_rate_limit ⟨60, 100⟩ 100 (.healthy ⟨[], [("k", ⟨5, 0⟩)], []⟩) "k"
      = ((true, ⟨100, 99, 160⟩), .healthy ⟨[], [("k", ⟨1, 100⟩)], []⟩) ∧
    SessionUtils.check_rate_limit ⟨60, 100⟩ 30 (.healthy ⟨[], [("k", ⟨5, 0⟩)], []⟩) "k"
      = ((true, ⟨100, 94, 60⟩), .healthy ⟨[], [("k", ⟨6, 0⟩)], []⟩) := by
  refine ⟨?_, ?_, ?_⟩
  · exact ((check_rate_limit_fixed_window ⟨60, 100⟩ 10 ⟨[], [], []⟩ "k").1
      (by decide)).1
  · exact ((check_rate_limit_fixed_window ⟨60, 100⟩ 100 ⟨[], [("k", ⟨5, 0⟩)], []⟩
      "k").2.1 ⟨5, 0⟩ (by decide) (by decide)).1
  · exact ((check_rate_limit_fixed_window ⟨60, 100⟩ 30 ⟨[], [("k", ⟨5, 0⟩)], []⟩
      "k").2.2 ⟨5, 0⟩ (by decide) (by decide) (by decide)).1

/-- C2: with an absent storage layer (`db is None`) or a storage layer
whose reads/writes raise, `check_rate_limit` fails open: it returns
`allowed = true` with info synthesized purely from configuration and the
clock (`remaining = limit - 1`, `reset = now + windowLength`), never
`allowed = false`. -/
theorem check_rate_limit_fail_open (settings : Settings) (now : Int) (key : String) :
    SessionUtils.check_rate_limit settings now .absent key
      = ((true, ⟨settings.rate_limit_requests, settings.rate_limit_requests - 1,
          now + settings.rate_limit_window⟩), .absent) ∧
    SessionUtils.check_rate_limit settings now .faulty key
      = ((true, ⟨settings.rate_limit_requests, settings.rate_limit_requests - 1,
          now + settings.rate_limit_window⟩), .faulty) :=
  ⟨rfl, rfl⟩

/-- C5: a denied check (counter within its window with
`requests ≥ limit`) returns `allowed = false`, `remaining = 0`,
`reset = window_start + windowLength`, and performs no write: the
resulting store is exactly the store it read. -/
theorem check_rate_limit_denied_no_write (settings : Settings) (now : Int)
    (s : Store) (key : String) (rl : RateLimitRec)
    (h : SQLiteDatabase.get_rate_limit s key = some rl)
    (hwin : ¬(now - rl.window_start > settings.rate_limit_window))
    (hlim : rl.requests ≥ settings.rate_limit_requests) :
    SessionUtils.check_rate_limit settings now (.healthy s) key
      = ((false, ⟨settings.rate_limit_requests, 0,
          rl.window_start + settings.rate_limit_window⟩), .healthy s) := by
  have hcond : ¬(rl.window_start < now - settings.rate_limit_window) := by omega
  simp only [SessionUtils.check_rate_limit, h]
  rw [if_neg hcond, if_pos hlim]

/-- Witness for C5: a full counter (3 of 3) inside its window is denied
and the store is untouched. -/
theorem check_rate_limit_denied_no_write_case :
    SessionUtils.check_rate_limit ⟨60, 3⟩ 30 (.healthy ⟨[], [("k", ⟨3, 0⟩)], []⟩) "k"
      = ((false, ⟨3, 0, 60⟩), .healthy ⟨[], [("k", ⟨3, 0⟩)], []⟩) :=
  check_rate_limit_denied_no_write ⟨60, 3⟩ 30 ⟨[], [("k", ⟨3, 0⟩)], []⟩ "k" ⟨3, 0⟩
    (by decide) (by decide) (by decide)

/-! ## Claims about session touch semantics -/

/-- C3 counterexample: `touch("abc","1.2.3.4")` then
`touch("abc","5.6.7.8")` leaves `ip_address = "1.2.3.4"`: the SQL
`UPDATE` of `update_session_activity` sets only `last_activity` and
`request_count`, never `ip_address`, so the second ip is not stored. -/
theorem update_session_activity_ip_counterexample :
    SQLiteDatabase.get_session
        (SQLiteDatabase.update_session_activity
          (SQLiteDatabase.update_session_activity ⟨[], [], []⟩ "abc" "1.2.3.4" 0)
          "abc" "5.6.7.8" 1) "abc"
      = some ⟨0, 1, 2, "1.2.3.4"⟩ ∧
    (SQLiteDatabase.get_session
        (SQLiteDatabase.update_session_activity
          (SQLiteDatabase.update_session_activity ⟨[], [], []⟩ "abc" "1.2.3.4" 0)
          "abc" "5.6.7.8" 1) "abc").map SessionRec.ip_address
      ≠ some "5.6.7.8" := by
  decide

/-- C3 as amended: a touch of an existing session increments
`request_count` and refreshes `last_activity` but does not overwrite the
stored `ip_address`; the ip argument only matters when the session is
created.  In particular after `touch("abc","1.2.3.4")` then
`touch("abc","5.6.7.8")`, `getSession("abc")` has `request_count = 2`
and `ip_address = "1.2.3.4"`. -/
theorem touch_preserves_ip (s : Store) (sid ip : String) (now : Int)
    (rec : SessionRec) (h : SQLiteDatabase.get_session s sid = some rec) :
    (SQLiteDatabase.get_session
        (SQLiteDatabase.update_session_activity s sid ip now) sid).map
        SessionRec.ip_address = some rec.ip_address ∧
    SQLiteDatabase.get_session (SQLiteDatabase.update_session_activity s sid ip now) sid
      = some ⟨rec.created_at, now, rec.request_count + 1, rec.ip_address⟩ := by
  have ht := SQLiteDatabase.get_session_touch s sid ip now rec h
  exact ⟨by rw [ht]; rfl, ht⟩

/-- Witness for the amended C3: the spec's own two-touch scenario,
evaluated. -/
theorem touch_preserves_ip_case :
    SQLiteDatabase.get_session
        (SQLiteDatabase.update_session_activity
          (SQLiteDatabase.update_session_activity ⟨[], [], []⟩ "abc" "1.2.3.4" 0)
          "abc" "5.6.7.8" 1) "abc"
      = some ⟨0, 1, 2, "1.2.3.4"⟩ :=
  (touch_preserves_ip
    (SQLiteDatabase.update_session_activity ⟨[], [], []⟩ "abc" "1.2.3.4" 0)
    "abc" "5.6.7.8" 1 ⟨0, 0, 1, "1.2.3.4"⟩ (by decide)).2

/-- C4: a touch of a session id absent from the store is exactly
`create_session`: the new row has `request_count = 1` (not 2),
`created_at = last_activity = now`, and the given ip stored. -/
theorem touch_or_create_count_one (s : Store) (sid ip : String) (now : Int)
    (h : SQLiteDatabase.get_session s sid = none) :
    SQLiteDatabase.update_session_activity s sid ip now
      = SQLiteDatabase.create_session s sid ip now ∧
    SQLiteDatabase.get_session (SQLiteDatabase.update_session_activity s sid ip now) sid
      = some ⟨now, now, 1, ip⟩ := by
  have he := SQLiteDatabase.touch_of_absent s sid ip now h
  refine ⟨he, ?_⟩
  rw [he]
  exact SQLiteDatabase.get_session_create s sid ip now h

/-- Witness for C4: a first-ever touch creates with `request_count = 1`. -/
theorem touch_or_create_count_one_case :
    SQLiteDatabase.get_session
        (SQLiteDatabase.update_session_activity ⟨[], [], []⟩ "abc" "1.2.3.4" 5) "abc"
      = some ⟨5, 5, 1, "1.2.3.4"⟩ :=
  (touch_or_create_count_one ⟨[], [], []⟩ "abc" "1.2.3.4" 5 (by decide)).2

/-! ## Claim about the handlers' rate-limit gates -/

/-- C6 fails on the code: with a full counter inside its window,
`check_rate_limit` returns `allowed = false`, yet the gates of
`/api/correct`, `/api/plot` and `/api/upload-materials` still proceed
into the business logic, because they test `not check_rate_limit(...)`
on the `(allowed, info)` tuple, which is always truthy, so the 429
branch is unreachable.  Only `/health` (which unpacks the tuple)
rejects. -/
theorem rate_limit_gate_dead_429 :
    (SessionUtils.check_rate_limit ⟨60, 1⟩ 0
        (.healthy ⟨[], [("calculate:abc", ⟨1, 0⟩)], []⟩) "calculate:abc").1.1
      = false ∧
    (correct_stresses_gate ⟨60, 1⟩ 0
        (.healthy ⟨[], [("calculate:abc", ⟨1, 0⟩)], []⟩) "calculate:abc").1
      = GateOutcome.proceed ∧
    (generate_plot_gate ⟨60, 1⟩ 0
        (.healthy ⟨[], [("plot:abc", ⟨1, 0⟩)], []⟩) "plot:abc").1
      = GateOutcome.proceed ∧
    (upload_materials_gate ⟨60, 1⟩ 0
        (.healthy ⟨[], [("upload:1.2.3.4", ⟨1, 0⟩)], []⟩) "upload:1.2.3.4").1
      = GateOutcome.proceed ∧
    (health_check_gate ⟨60, 1⟩ 0
        (.healthy ⟨[], [("health:1.2.3.4", ⟨1, 0⟩)], []⟩) "health:1.2.3.4").1
      = GateOutcome.rejected429 := by
  decide

/-! ## Claim about the janitor's cleanup -/

/-- C7: `cleanup_expired_sessions(ttl)` keeps a row if and only if it
was present and its relevant timestamp does not predate `now - ttl`
(sessions by `last_activity`, rate-limit counters by `window_start`,
usage logs by `timestamp`), and each surviving table is a sublist of the
original, so surviving rows are unchanged and in their original order. -/
theorem cleanup_deletes_exactly_expired (s : Store) (now ttl : Int) :
    (∀ p : String × SessionRec,
      p ∈ (SQLiteDatabase.cleanup_expired_sessions s now ttl).sessions
        ↔ p ∈ s.sessions ∧ ¬(p.2.last_activity < now - ttl)) ∧
    (∀ p : String × RateLimitRec,
      p ∈ (SQLiteDatabase.cleanup_expired_sessions s now ttl).rate_limits
        ↔ p ∈ s.rate_limits ∧ ¬(p.2.window_start < now - ttl)) ∧
    (∀ l : UsageLogRec,
      l ∈ (SQLiteDatabase.cleanup_expired_sessions s now ttl).usage_logs
        ↔ l ∈ s.usage_logs ∧ ¬(l.timestamp < now - ttl)) ∧
    (SQLiteDatabase.cleanup_expired_sessions s now ttl).sessions.Sublist s.sessions ∧
    (SQLiteDatabase.cleanup_expired_sessions s now ttl).rate_limits.Sublist
      s.rate_limits ∧
    (SQLiteDatabase.cleanup_expired_sessions s now ttl).usage_logs.Sublist
      s.usage_logs := by
  refine ⟨fun p => ?_, fun p => ?_, fun l => ?_,
    List.filter_sublist _, List.filter_sublist _, List.filter_sublist _⟩ <;>
    simp [SQLiteDatabase.cleanup_expired_sessions, List.mem_filter]

/-! ## Claim about the session invariants -/

/-- Lemma: `create_session` preserves the session invariant. -/
theorem sessionWF_create (s : Store) (sid ip : String) (now : Int)
    (hwf : SessionWF s) :
    SessionWF (SQLiteDatabase.create_session s sid ip now) := by
  intro p hp
  rcases List.mem_append.mp hp with hin | hnew
  · exact hwf p hin
  · rcases List.mem_singleton.mp hnew with rfl
    exact ⟨le_refl 1, le_refl now⟩

/-- Lemma: `update_session_activity` preserves the session invariant when the
clock has not gone backwards past any stored `last_activity`. -/
theorem sessionWF_touch (s : Store) (sid ip : String) (now : Int)
    (hwf : SessionWF s)
    (hclock : ∀ p ∈ s.sessions, p.2.last_activity ≤ now) :
    SessionWF (SQLiteDatabase.update_session_activity s sid ip now) := by
  unfold SQLiteDatabase.update_session_activity
  cases hf : (findRow sid s.sessions).isSome with
  | false =>
    simp only [hf, Bool.false_eq_true, if_false]
    exact sessionWF_create s sid ip now hwf
  | true =>
    simp only [hf, if_true]
    intro p hp
    rcases List.mem_map.mp hp with ⟨q, hq, rfl⟩
    by_cases hk : (q.1 == sid) = true
    · rw [if_pos hk]
      refine ⟨?_, ?_⟩
      · have := (hwf q hq).1
        simp only
        omega
      · have h1 := (hwf q hq).2
        have h2 := hclock q hq
        simp only
        omega
    · rw [if_neg hk]
      exact hwf q hq

/-- C8: the invariant `request_count ≥ 1 ∧ last_activity ≥ created_at`
is preserved by `create_session`, `update_session_activity`,
`cleanup_expired_sessions` and `clear_all_data` (assuming the wall clock
never runs backwards past a stored timestamp), and two sequential
touches of an existing session increase `request_count` by exactly 1
each and never decrease `last_activity`. -/
theorem session_invariants (s : Store) (sid ip : String) (now now2 ttl : Int)
    (hwf : SessionWF s)
    (hclock : ∀ p ∈ s.sessions, p.2.last_activity ≤ now)
    (hnow2 : now ≤ now2) :
    SessionWF (SQLiteDatabase.create_session s sid ip now) ∧
    SessionWF (SQLiteDatabase.update_session_activity s sid ip now) ∧
    SessionWF (SQLiteDatabase.cleanup_expired_sessions s now ttl) ∧
    SessionWF (SQLiteDatabase.clear_all_data s) ∧
    (∀ rec : SessionRec, SQLiteDatabase.get_session s sid = some rec →
      SQLiteDatabase.get_session (SQLiteDatabase.update_session_activity s sid ip now)
          sid
        = some ⟨rec.created_at, now, rec.request_count + 1, rec.ip_address⟩ ∧
      SQLiteDatabase.get_session
          (SQLiteDatabase.update_session_activity
            (SQLiteDatabase.update_session_activity s sid ip now) sid ip now2) sid
        = some ⟨rec.created_at, now2, rec.request_count + 2, rec.ip_address⟩ ∧
      rec.last_activity ≤ now ∧ now ≤ now2) := by
  refine ⟨sessionWF_create s sid ip now hwf, sessionWF_touch s sid ip now hwf hclock,
    ?_, ?_, ?_⟩
  · intro p hp
    exact hwf p (List.mem_filter.mp hp).1
  · intro p hp
    exact absurd hp (List.not_mem_nil p)
  · intro rec h
    have h1 := SQLiteDatabase.get_session_touch s sid ip now rec h
    have h2 := SQLiteDatabase.get_session_touch
      (SQLiteDatabase.update_session_activity s sid ip now) sid ip now2
      ⟨rec.created_at, now, rec.request_count + 1, rec.ip_address⟩ h1
    have hcnt : rec.request_count + 1 + 1 = rec.request_count + 2 := by omega
    rw [hcnt] at h2
    have hlast : rec.last_activity ≤ now := by
      rcases findRow_mem h with ⟨p, hp, hv⟩
      have := hclock p hp
      rw [hv] at this
      exact this
    exact ⟨h1, h2, hlast, hnow2⟩

/-- Witness for C8: a store holding `("abc", ⟨0, 3, 2, "ip"⟩)` touched at
t=5 and t=7 keeps the invariant and ends with `request_count = 4`,
`last_activity = 7`. -/
theorem session_invariants_case :
    SessionWF (SQLiteDatabase.update_session_activity
      ⟨[("abc", ⟨0, 3, 2, "ip"⟩)], [], []⟩ "abc" "5.6.7.8" 5) ∧
    SQLiteDatabase.get_session
        (SQLiteDatabase.update_session_activity
          (SQLiteDatabase.update_session_activity
            ⟨[("abc", ⟨0, 3, 2, "ip"⟩)], [], []⟩ "abc" "5.6.7.8" 5)
          "abc" "5.6.7.8" 7) "abc"
      = some ⟨0, 7, 4, "ip"⟩ := by
  have h := session_invariants ⟨[("abc", ⟨0, 3, 2, "ip"⟩)], [], []⟩ "abc" "5.6.7.8"
    5 7 1
    (by intro p hp; rcases List.mem_singleton.mp hp with rfl; exact ⟨by decide, by decide⟩)
    (by decide) (by decide)
  exact ⟨h.2.1, (h.2.2.2.2 ⟨0, 3, 2, "ip"⟩ (by decide)).2.1⟩

/-! ## Claim about schema initialization -/

/-- C9: `create_tables` swallows exactly the failures whose message
contains `"already exists"` (schema already initialized) and returns
normally; every other failure (e.g. an unreadable migration script or
an unwritable path) propagates unchanged; a successful run returns
normally. -/
theorem create_tables_swallows_already_exists :
    SQLiteDatabase.create_tables (.ok ()) = .ok () ∧
    (∀ e : String, SQLiteDatabase.strContains e "already exists" = true →
      SQLiteDatabase.create_tables (.error e) = .ok ()) ∧
    (∀ e : String, SQLiteDatabase.strContains e "already exists" = false →
      SQLiteDatabase.create_tables (.error e) = .error e) := by
  refine ⟨rfl, fun e h => ?_, fun e h => ?_⟩
  · simp [SQLiteDatabase.create_tables, h]
  · simp [SQLiteDatabase.create_tables, h]

/-- Witness for C9: the sqlite "table sessions already exists" message is
swallowed; an I/O failure message propagates. -/
theorem create_tables_swallows_already_exists_case :
    SQLiteDatabase.create_tables (.error "table sessions already exists") = .ok () ∧
    SQLiteDatabase.create_tables (.error "unable to open database file")
      = .error "unable to open database file" := by
  constructor
  · exact create_tables_swallows_already_exists.2.1 "table sessions already exists"
      (by decide)
  · exact create_tables_swallows_already_exists.2.2 "unable to open database file"
      (by decide)

/-! ## Claim about the in-memory user-materials cleanup -/

/-- C10: the in-memory `cleanup_expired_sessions` of
`app/utils/session.py` removes nothing when the `user_materials` map
holds at most 1000 sessions; when it holds more than 1000 (keys being
distinct, as in a Python dict) it deletes exactly the 100
earliest-inserted entries — no timestamp is consulted (the value type is
abstract). -/
theorem user_materials_cleanup_fifo {α : Type} (m : List (String × α)) :
    (m.length ≤ 1000 → SessionUtils.cleanup_expired_sessions m = m) ∧
    (1000 < m.length → (m.map Prod.fst).Nodup →
      SessionUtils.cleanup_expired_sessions m = m.drop 100) := by
  constructor
  · intro hlen
    unfold SessionUtils.cleanup_expired_sessions
    rw [if_neg (by omega)]
  · intro hlen hnd
    unfold SessionUtils.cleanup_expired_sessions
    rw [if_pos (by omega)]
    have hsplit : m.filter (fun p => !(((m.map Prod.fst).take 100).contains p.1))
        = (m.take 100 ++ m.drop 100).filter
            (fun p => !(((m.map Prod.fst).take 100).contains p.1)) := by
      rw [List.take_append_drop]
    rw [hsplit, List.filter_append]
    have h1 : (m.take 100).filter
        (fun p => !(((m.map Prod.fst).take 100).contains p.1)) = [] := by
      rw [List.filter_eq_nil_iff]
      intro p hp
      have hmem : p.1 ∈ (m.map Prod.fst).take 100 := by
        rw [← List.map_take]
        exact List.mem_map_of_mem Prod.fst hp
      simpa using hmem
    have h2 : (m.drop 100).filter
        (fun p => !(((m.map Prod.fst).take 100).contains p.1)) = m.drop 100 := by
      rw [List.filter_eq_self]
      intro p hp
      have hmem : p.1 ∈ (m.map Prod.fst).drop 100 := by
        rw [← List.map_drop]
        exact List.mem_map_of_mem Prod.fst hp
      have hdisj : List.Disjoint ((m.map Prod.fst).take 100)
          ((m.map Prod.fst).drop 100) := by
        apply List.disjoint_of_nodup_append
        rw [List.take_append_drop]
        exact hnd
      have hnot : p.1 ∉ (m.map Prod.fst).take 100 := fun hin => hdisj hin hmem
      simpa using hnot
    rw [h1, h2, List.nil_append]

/-- Witness for C10: a singleton map is untouched; a 1001-entry map with
pairwise-distinct keys loses exactly its first 100 entries. -/
theorem user_materials_cleanup_fifo_case :
    SessionUtils.cleanup_expired_sessions [("a", (0 : Nat))] = [("a", 0)] ∧
    SessionUtils.cleanup_expired_sessions
        ((List.range 1001).map
          (fun i => (String.mk (List.replicate i 'a'), (0 : Nat))))
      = ((List.range 1001).map
          (fun i => (String.mk (List.replicate i 'a'), (0 : Nat)))).drop 100 := by
  constructor
  · exact (user_materials_cleanup_fifo [("a", (0 : Nat))]).1 (by decide)
  · refine (user_materials_cleanup_fifo _).2 ?_ ?_
    · simp only [List.length_map, List.length_range]
      omega
    · have hcomp : (Prod.fst ∘ fun i : Nat =>
          (String.mk (List.replicate i 'a'), (0 : Nat)))
          = (fun i : Nat => String.mk (List.replicate i 'a')) :=
        funext fun i => rfl
      rw [List.map_map, hcomp]
      have hinj : Function.Injective
          (fun i : Nat => String.mk (List.replicate i 'a')) := by
        intro i j hij
        have hl := congrArg (fun s : String => s.data.length) hij
        simpa using hl
      exact (List.nodup_range 1001).map hinj

end NeuberServer
